import Mathlib

/-! # Disk volume-mount validation (pkg/compute/container_drivers/volume_mount/disk.go)

A shallow embedding of the `disk` volume-mount driver: the structural check
`validateCreateData`, the two entry points `ValidateCreateData` (existing pod)
and `ValidatePodCreateData` (pod creation), the overlay dispatch
`validateOverlay` and the directory overlay validator.

Go pointers are options (`*int` is `Option Int`, `*ContainerVolumeMountDisk` is
`Option ContainerVolumeMountDisk`).  The Go code writes through `vm`, so the
entry points return the contents of the caller's `*vm` at the moment the call
returns next to the returned value.  A call of a method on a nil interface
value is the fault `Fault.panic`.
-/

namespace volume_mount

/-! ## Errors -/

/-- Error classes of `httperrors`, named after the constructors the driver calls
(`NewNotEmptyError`, `NewInputParameterError`, `NewNotFoundError`); `other`
stands for any class an external collaborator may return. -/
inductive ErrorClass where
  | NotEmptyError
  | InputParameterError
  | NotFoundError
  | other (name : String)
  deriving DecidableEq, Repr

/-- The kind the specification calls `MissingField`: produced by `NewNotEmptyError`. -/
abbrev MissingField : ErrorClass := ErrorClass.NotEmptyError

/-- The kind the specification calls `InvalidValue`: produced by `NewInputParameterError`. -/
abbrev InvalidValue : ErrorClass := ErrorClass.InputParameterError

/-- The kind the specification calls `NotFound`: produced by `NewNotFoundError`. -/
abbrev NotFound : ErrorClass := ErrorClass.NotFoundError

/-- A Go `error` value: its class and its formatted message. -/
structure Error where
  kind : ErrorClass
  msg : String
  deriving DecidableEq, Repr

/-- The call `httperrors.NewNotEmptyError(msg)`. -/
def NewNotEmptyError (msg : String) : Error := ⟨ErrorClass.NotEmptyError, msg⟩

/-- The call `httperrors.NewInputParameterError(msg)`, the message already formatted. -/
def NewInputParameterError (msg : String) : Error := ⟨ErrorClass.InputParameterError, msg⟩

/-- The call `httperrors.NewNotFoundError(msg)`, the message already formatted. -/
def NewNotFoundError (msg : String) : Error := ⟨ErrorClass.NotFoundError, msg⟩

/-- Modelled from the spec: `errors.Wrap` / `errors.Wrapf` of `yunion.io/x/pkg/errors`
is not part of the source tree.  Section 7 of the specification: delegated errors
"are wrapped with a short contextual label identifying which sub-step failed,
preserving the original error kind". -/
def Wrap (err : Error) (label : String) : Error :=
  ⟨err.kind, label ++ ": " ++ err.msg⟩

/-- What a call can end in besides a normal return: a Go `error`, or a run-time
panic (method call on a nil interface value). -/
inductive Fault where
  | error (e : Error)
  | panic
  deriving DecidableEq, Repr

/-- The error class of a fault, when it is an error. -/
def Fault.kind? : Fault → Option ErrorClass
  | Fault.error e => some e.kind
  | Fault.panic => none

/-- The message of a fault, when it is an error. -/
def Fault.msg? : Fault → Option String
  | Fault.error e => some e.msg
  | Fault.panic => none

/-! ## Data model -/

/-- The Go type `apis.ContainerDiskOverlayType`, a string. -/
abbrev ContainerDiskOverlayType := String

/-- Modelled from the spec: the constant `apis.CONTAINER_DISK_OVERLAY_TYPE_DIRECTORY`
is declared outside the source tree; section 4.2 names the one known type `directory`. -/
def CONTAINER_DISK_OVERLAY_TYPE_DIRECTORY : ContainerDiskOverlayType := "directory"

/-- Modelled from the spec: the declaration of `apis.ContainerVolumeMountDiskOverlay` is
outside the source tree.  `LowerDir` is the field the source reads; `TypeTag` is the tag
(`type`) of the tagged union of section 3. -/
structure ContainerVolumeMountDiskOverlay where
  TypeTag : ContainerDiskOverlayType
  LowerDir : List String
  deriving DecidableEq, Repr

/-- The Go type `apis.ContainerVolumeMountDisk`, with the fields the driver uses. -/
structure ContainerVolumeMountDisk where
  Index : Option Int
  Id : String
  SubDirectory : String
  Overlay : Option ContainerVolumeMountDiskOverlay
  deriving DecidableEq, Repr

/-- The Go type `apis.ContainerVolumeMount`, with the field the driver uses. -/
structure ContainerVolumeMount where
  Disk : Option ContainerVolumeMountDisk
  deriving DecidableEq, Repr

/-- An entry of the list `pod.GetDisks()` returns (`models.SDisk`): the canonical id,
the name and the template id. -/
structure SDisk where
  Id : String
  Name : String
  TemplateId : String
  deriving DecidableEq, Repr

/-- The method `GetId` of a disk. -/
def SDisk.GetId (d : SDisk) : String := d.Id

/-- The method `GetName` of a disk. -/
def SDisk.GetName (d : SDisk) : String := d.Name

/-- An entry of `input.Disks` of `api.ServerCreateInput` (`api.DiskConfig`), with the
field the driver uses. -/
structure DiskConfig where
  ImageId : String
  deriving DecidableEq, Repr

/-- The methods of `apis.ContainerVolumeMountDiskOverlay` the driver calls; they are
declared outside the source tree and are a parameter of the embedding. -/
structure OverlayMethods where
  IsValid : ContainerVolumeMountDiskOverlay → Option Error
  GetType : ContainerVolumeMountDiskOverlay → ContainerDiskOverlayType

/-- The Go interface `iDiskOverlay`. -/
structure iDiskOverlay where
  validateCreateData : ContainerVolumeMountDiskOverlay → Option Error

/-- The Go struct `disk`: the overlay registry, a map from type tag to validator
(`none` is the nil interface value a Go map returns for an absent key). -/
structure disk where
  overlayDrivers : ContainerDiskOverlayType → Option iDiskOverlay

/-- The caller's `*vm` when the call returns, and the value the call returns. -/
structure Call (α : Type) where
  mem : ContainerVolumeMount
  ret : Except Fault α

/-! ## Message formatting -/

/-- The verb `%d` of `fmt` on an `int`. -/
def fmtInt (i : Int) : String := toString i

/-- The verb `%d` of `fmt` on `len(..)`. -/
def fmtLen (n : Nat) : String := toString n

/-! ## The directory overlay validator -/

/-- The loop of `diskOverlayDir.validateCreateData` from position `idx` on. -/
def diskOverlayDir.loop : Nat → List String → Option Error
  | _, [] => none
  | idx, ld :: rest =>
    if ld = "" then
      some (NewNotEmptyError ("empty " ++ fmtLen idx ++ " dir"))
    else if ld = "/" then
      some (NewInputParameterError "can't use '/' as lower_dir")
    else
      diskOverlayDir.loop (idx + 1) rest

/-- The method `diskOverlayDir.validateCreateData`. -/
def diskOverlayDir.validateCreateData (input : ContainerVolumeMountDiskOverlay) : Option Error :=
  if input.LowerDir.length = 0 then
    some (NewNotEmptyError "lower_dir is required")
  else
    diskOverlayDir.loop 0 input.LowerDir

/-- The constructor `newDiskOverlayDir`. -/
def newDiskOverlayDir : iDiskOverlay := ⟨diskOverlayDir.validateCreateData⟩

/-- The constructor `newDisk`: a registry with the directory validator alone. -/
def newDisk : disk :=
  ⟨fun t => if t = CONTAINER_DISK_OVERLAY_TYPE_DIRECTORY then some newDiskOverlayDir else none⟩

/-! ## The disk mount validator -/

/-- The method `disk.validateCreateData`: the structural check. -/
def disk.validateCreateData (_d : disk) (vm : ContainerVolumeMount) :
    Except Error ContainerVolumeMount :=
  match vm.Disk with
  | none => Except.error (NewNotEmptyError "disk is nil")
  | some dk =>
    if dk.Index = none ∧ dk.Id = "" then
      Except.error (NewNotEmptyError "one of index or id is required")
    else
      match dk.Index with
      | some i =>
        if i < 0 then
          Except.error (NewInputParameterError "index is less than 0")
        else
          Except.ok vm
      | none => Except.ok vm

/-- The method `disk.getOverlayDriver`. -/
def disk.getOverlayDriver (d : disk) (m : OverlayMethods)
    (ov : ContainerVolumeMountDiskOverlay) : Option iDiskOverlay :=
  d.overlayDrivers (m.GetType ov)

/-- The method `disk.validateOverlay`, on the disk of the mount (the callers reach it
with `vm.Disk` non-nil). -/
def disk.validateOverlay (d : disk) (m : OverlayMethods) (dk : ContainerVolumeMountDisk) :
    Except Fault Unit :=
  match dk.Overlay with
  | none => Except.ok ()
  | some ov =>
    match m.IsValid ov with
    | some err =>
      Except.error (Fault.error (NewInputParameterError ("invalid overlay input: " ++ err.msg)))
    | none =>
      match d.getOverlayDriver m ov with
      | none => Except.error Fault.panic
      | some drv =>
        match drv.validateCreateData ov with
        | some err => Except.error (Fault.error (Wrap err ("validate overlay " ++ m.GetType ov)))
        | none => Except.ok ()

/-- How the lookup loop of `ValidateCreateData` ends: it runs off the list
(`foundDisk` still false), it breaks at a match after writing `disk.Id`, or it returns
an error from inside the loop after writing `disk.Id`. -/
inductive LoopEnd where
  | notFound
  | broke (id : String)
  | returned (id : String) (err : Error)
  deriving DecidableEq, Repr

/-- The `for _, d := range disks` loop of `ValidateCreateData`, for the reference `id`
and the mount's `SubDirectory`. -/
def lookupLoop (id subDirectory : String) : List SDisk → LoopEnd
  | [] => LoopEnd.notFound
  | d :: rest =>
    if d.GetId = id ∨ d.GetName = id then
      if d.TemplateId ≠ "" ∧ subDirectory = "" then
        LoopEnd.returned d.GetId (NewInputParameterError
          ("sub_directory is required when disk has template_id " ++ d.TemplateId))
      else
        LoopEnd.broke d.GetId
    else
      lookupLoop id subDirectory rest

/-- The tail of `ValidateCreateData`: overlay validation and the final return, with the
caller's mount in state `vm` whose disk is `dk`. -/
def disk.finish (d : disk) (m : OverlayMethods) (vm : ContainerVolumeMount)
    (dk : ContainerVolumeMountDisk) : Call ContainerVolumeMount :=
  match d.validateOverlay m dk with
  | Except.error (Fault.error err) => ⟨vm, Except.error (Fault.error (Wrap err "validate overlay"))⟩
  | Except.error Fault.panic => ⟨vm, Except.error Fault.panic⟩
  | Except.ok () => ⟨vm, Except.ok vm⟩

/-- The method `disk.ValidateCreateData`; `getDisks` is the result of `pod.GetDisks()`. -/
def disk.ValidateCreateData (d : disk) (m : OverlayMethods)
    (getDisks : Except Error (List SDisk)) (vm : ContainerVolumeMount) :
    Call ContainerVolumeMount :=
  match d.validateCreateData vm with
  | Except.error err => ⟨vm, Except.error (Fault.error err)⟩
  | Except.ok _ =>
    match getDisks with
    | Except.error err => ⟨vm, Except.error (Fault.error (Wrap err "get pod disks"))⟩
    | Except.ok disks =>
      match vm.Disk with
      | none => ⟨vm, Except.error Fault.panic⟩
      | some dk =>
        match dk.Index with
        | some diskIndex =>
          if diskIndex ≥ (disks.length : Int) then
            ⟨vm, Except.error (Fault.error (NewInputParameterError
              ("disk.index " ++ fmtInt diskIndex ++ " is large than disk size "
                ++ fmtLen disks.length)))⟩
          else
            match disks.get? diskIndex.toNat with
            | none => ⟨vm, Except.error Fault.panic⟩
            | some diskObj =>
              let dk1 : ContainerVolumeMountDisk :=
                ⟨none, diskObj.GetId, dk.SubDirectory, dk.Overlay⟩
              let vm1 : ContainerVolumeMount := ⟨some dk1⟩
              if diskObj.TemplateId ≠ "" ∧ dk1.SubDirectory = "" then
                ⟨vm1, Except.error (Fault.error (NewInputParameterError
                  ("sub_directory is required when disk has template_id "
                    ++ diskObj.TemplateId)))⟩
              else
                d.finish m vm1 dk1
        | none =>
          if dk.Id = "" then
            ⟨vm, Except.error (Fault.error (NewNotEmptyError "disk.id is empty"))⟩
          else
            match lookupLoop dk.Id dk.SubDirectory disks with
            | LoopEnd.returned id err =>
              ⟨⟨some ⟨dk.Index, id, dk.SubDirectory, dk.Overlay⟩⟩, Except.error (Fault.error err)⟩
            | LoopEnd.notFound =>
              ⟨vm, Except.error (Fault.error (NewNotFoundError
                ("not found pod disk by " ++ dk.Id)))⟩
            | LoopEnd.broke id =>
              let dk1 : ContainerVolumeMountDisk := ⟨dk.Index, id, dk.SubDirectory, dk.Overlay⟩
              d.finish m ⟨some dk1⟩ dk1

/-- The method `disk.ValidatePodCreateData`; `disks` is `input.Disks`. -/
def disk.ValidatePodCreateData (d : disk) (vm : ContainerVolumeMount)
    (disks : List DiskConfig) : Call Unit :=
  match d.validateCreateData vm with
  | Except.error err => ⟨vm, Except.error (Fault.error err)⟩
  | Except.ok _ =>
    match vm.Disk with
    | none => ⟨vm, Except.error Fault.panic⟩
    | some dk =>
      if dk.Id ≠ "" then
        ⟨vm, Except.error (Fault.error (NewInputParameterError
          ("can't specify disk_id " ++ dk.Id ++ " when creating pod")))⟩
      else
        match dk.Index with
        | none => ⟨vm, Except.error (Fault.error (NewNotEmptyError "disk.index is required"))⟩
        | some diskIndex =>
          if diskIndex < 0 then
            ⟨vm, Except.error (Fault.error (NewInputParameterError
              ("disk.index " ++ fmtInt diskIndex ++ " is less than 0")))⟩
          else if diskIndex ≥ (disks.length : Int) then
            ⟨vm, Except.error (Fault.error (NewInputParameterError
              ("disk.index " ++ fmtInt diskIndex ++ " is large than disk size "
                ++ fmtLen disks.length)))⟩
          else
            match disks.get? diskIndex.toNat with
            | none => ⟨vm, Except.error Fault.panic⟩
            | some inputDisk =>
              if inputDisk.ImageId ≠ "" ∧ dk.SubDirectory = "" then
                ⟨vm, Except.error (Fault.error (NewInputParameterError
                  ("sub_directory is required when disk has image_id "
                    ++ inputDisk.ImageId)))⟩
              else
                ⟨vm, Except.ok ()⟩

/-- The call fails with an error of class `k`. -/
def Call.failsWith {α : Type} (c : Call α) (k : ErrorClass) : Prop :=
  ∃ e : Error, c.ret = Except.error (Fault.error e) ∧ e.kind = k

/-- The call returns normally. -/
def Call.succeeds {α : Type} (c : Call α) : Prop :=
  ∃ a : α, c.ret = Except.ok a

/-- Modelled from the spec: the methods `IsValid` and `GetType` of
`apis.ContainerVolumeMountDiskOverlay` are declared outside the source tree.
Section 3: the overlay "self-validates its tag is one of the known types before
dispatch"; section 4.2: the known set of types is `directory` alone. -/
def apisOverlayMethods : OverlayMethods where
  IsValid := fun ov =>
    if ov.TypeTag = CONTAINER_DISK_OVERLAY_TYPE_DIRECTORY then none
    else some ⟨ErrorClass.other "ErrNotSupported", "unsupported overlay type " ++ ov.TypeTag⟩
  GetType := fun ov => ov.TypeTag

/-- The string `s` occurs in the message `msg`. -/
def mentions (msg s : String) : Prop := List.IsInfix s.data msg.data

/-- The test of the lookup loop: the entry's id or name equals the reference `s`. -/
def matchesRef (s : String) (e : SDisk) : Bool := decide (e.GetId = s ∨ e.GetName = s)

/-- The disk reference of `dk` resolves to the entry `e` of `L`: by an index in range, or,
the index being unset, as the first entry whose id or name equals the non-empty `dk.Id`. -/
def resolvesTo (L : List SDisk) (dk : ContainerVolumeMountDisk) (e : SDisk) : Prop :=
  (∃ i : Int, dk.Index = some i ∧ 0 ≤ i ∧ i < (L.length : Int) ∧ L.get? i.toNat = some e) ∨
  (dk.Index = none ∧ dk.Id ≠ "" ∧ L.find? (matchesRef dk.Id) = some e)

/-- An error result of a validator (`nil` is `none`) is an error of class `k`. -/
def rejectsWith (r : Option Error) (k : ErrorClass) : Prop :=
  ∃ e : Error, r = some e ∧ e.kind = k

/-- An entry of `lowerDir` that the directory overlay validator lets pass: neither the
empty string nor the root path. -/
def passableDir (x : String) : Prop := x ≠ "" ∧ x ≠ "/"

/-- A disk list as the persistence layer keeps it: every id is non-empty, ids are pairwise
distinct, and no disk's name is the id of a different disk. -/
def distinctDisks (L : List SDisk) : Prop :=
  (∀ x ∈ L, x.GetId ≠ "") ∧ (L.map SDisk.GetId).Nodup ∧
  (∀ x ∈ L, ∀ y ∈ L, x.GetName = y.GetId → x = y)

/-! ## Helper lemmas -/

theorem mentions_append_right (a s : String) : mentions (a ++ s) s := by
  unfold mentions
  rw [String.data_append]
  exact (List.suffix_append _ _).isInfix

theorem mentions_append_mid (a s b : String) : mentions (a ++ s ++ b) s := by
  unfold mentions
  rw [String.data_append, String.data_append]
  exact ⟨a.data, b.data, rfl⟩

theorem mentions_append_left (msg s b : String) (h : mentions msg s) : mentions (msg ++ b) s := by
  unfold mentions at *
  rw [String.data_append]
  obtain ⟨p, q, hpq⟩ := h
  exact ⟨p, q ++ b.data, by rw [← hpq]; simp [List.append_assoc]⟩

theorem lookupLoop_of_find (id sub : String) (e : SDisk) :
    ∀ L : List SDisk, L.find? (matchesRef id) = some e →
      lookupLoop id sub L =
        if e.TemplateId ≠ "" ∧ sub = "" then
          LoopEnd.returned e.GetId (NewInputParameterError
            ("sub_directory is required when disk has template_id " ++ e.TemplateId))
        else LoopEnd.broke e.GetId := by
  intro L
  induction L with
  | nil => intro h; simp at h
  | cons x rest ih =>
    intro h
    by_cases hx : x.GetId = id ∨ x.GetName = id
    · have hm : matchesRef id x = true := by simp [matchesRef, hx]
      rw [List.find?_cons_of_pos _ hm] at h
      cases h
      simp only [lookupLoop, if_pos hx]
    · have hm : ¬ (matchesRef id x = true) := by simp [matchesRef, hx]
      rw [List.find?_cons_of_neg _ hm] at h
      simp only [lookupLoop, if_neg hx]
      exact ih h

theorem lookupLoop_of_find_none (id sub : String) :
    ∀ L : List SDisk, L.find? (matchesRef id) = none → lookupLoop id sub L = LoopEnd.notFound := by
  intro L
  induction L with
  | nil => intro _; rfl
  | cons x rest ih =>
    intro h
    by_cases hx : x.GetId = id ∨ x.GetName = id
    · have hm : matchesRef id x = true := by simp [matchesRef, hx]
      rw [List.find?_cons_of_pos _ hm] at h
      cases h
    · have hm : ¬ (matchesRef id x = true) := by simp [matchesRef, hx]
      rw [List.find?_cons_of_neg _ hm] at h
      simp only [lookupLoop, if_neg hx]
      exact ih h

theorem find_none_iff_no_match (s : String) (L : List SDisk) :
    L.find? (matchesRef s) = none ↔ ∀ e ∈ L, ¬ (e.GetId = s ∨ e.GetName = s) := by
  rw [List.find?_eq_none]
  constructor
  · intro h e he hm
    exact h e he (by simp [matchesRef, hm])
  · intro h e he hm
    apply h e he
    simpa [matchesRef] using hm

theorem get?_toNat_of_lt (α : Type) (L : List α) (i : Int) (h0 : 0 ≤ i) (hlt : i < (L.length : Int)) :
    ∃ e, L.get? i.toNat = some e := by
  have : i.toNat < L.length := by omega
  exact ⟨L.get ⟨i.toNat, this⟩, List.get?_eq_get this⟩

theorem structural_ok_of_index (d : disk) (dk : ContainerVolumeMountDisk) (i : Int)
    (hidx : dk.Index = some i) (h0 : 0 ≤ i) :
    d.validateCreateData ⟨some dk⟩ = Except.ok ⟨some dk⟩ := by
  simp [disk.validateCreateData, hidx, not_lt.mpr h0]

theorem structural_ok_of_id (d : disk) (dk : ContainerVolumeMountDisk)
    (hidx : dk.Index = none) (hid : dk.Id ≠ "") :
    d.validateCreateData ⟨some dk⟩ = Except.ok ⟨some dk⟩ := by
  simp [disk.validateCreateData, hidx, hid]

/-! ## Existing-pod resolution -/

/-- C1: a mount whose disk has an in-range index, no overlay, and whose referenced disk has
an empty template id or whose subDirectory is non-empty, is accepted by `ValidateCreateData`;
the returned mount (and the caller's mount) has `Disk.Id` equal to the canonical id of the
indexed disk, `Disk.Index` cleared, and subDirectory and overlay as in the input. -/
theorem C1_index_resolution (d : disk) (m : OverlayMethods) (L : List SDisk)
    (dk : ContainerVolumeMountDisk) (i : Int)
    (hidx : dk.Index = some i) (h0 : 0 ≤ i) (hlt : i < (L.length : Int))
    (hov : dk.Overlay = none)
    (ht : ∀ e, L.get? i.toNat = some e → e.TemplateId = "" ∨ dk.SubDirectory ≠ "") :
    ∃ e, L.get? i.toNat = some e ∧
      (d.ValidateCreateData m (Except.ok L) ⟨some dk⟩).ret =
        Except.ok ⟨some ⟨none, e.GetId, dk.SubDirectory, dk.Overlay⟩⟩ ∧
      (d.ValidateCreateData m (Except.ok L) ⟨some dk⟩).mem =
        ⟨some ⟨none, e.GetId, dk.SubDirectory, dk.Overlay⟩⟩ := by
  obtain ⟨e, he⟩ := get?_toNat_of_lt SDisk L i h0 hlt
  have hte := ht e he
  have hcond : ¬ (e.TemplateId ≠ "" ∧ dk.SubDirectory = "") := by
    rintro ⟨h1, h2⟩
    rcases hte with h | h
    · exact h1 h
    · exact h h2
  refine ⟨e, he, ?_⟩
  simp only [disk.ValidateCreateData, structural_ok_of_index d dk i hidx h0, hidx,
    if_neg (not_le.mpr hlt), he, if_neg hcond, disk.finish, disk.validateOverlay, hov,
    ge_iff_le, and_self]

/-- C1 at the specification's example: disks `d1`, `d2` (template `tpl1`), index 1,
subDirectory `x`. -/
theorem C1_index_resolution_witness :
    ∃ e, [SDisk.mk "d1" "n1" "", SDisk.mk "d2" "n2" "tpl1"].get? (1 : Int).toNat = some e ∧
      (newDisk.ValidateCreateData apisOverlayMethods
          (Except.ok [SDisk.mk "d1" "n1" "", SDisk.mk "d2" "n2" "tpl1"])
          ⟨some ⟨some 1, "", "x", none⟩⟩).ret =
        Except.ok ⟨some ⟨none, e.GetId, "x", none⟩⟩ ∧
      (newDisk.ValidateCreateData apisOverlayMethods
          (Except.ok [SDisk.mk "d1" "n1" "", SDisk.mk "d2" "n2" "tpl1"])
          ⟨some ⟨some 1, "", "x", none⟩⟩).mem =
        ⟨some ⟨none, e.GetId, "x", none⟩⟩ :=
  C1_index_resolution newDisk apisOverlayMethods
    [SDisk.mk "d1" "n1" "", SDisk.mk "d2" "n2" "tpl1"] ⟨some 1, "", "x", none⟩ 1
    rfl (by decide) (by decide) rfl (by intro e _; right; decide)

/-! ## Equations of `ValidateCreateData`, branch by branch -/

theorem ValidateCreateData_index_large (d : disk) (m : OverlayMethods) (L : List SDisk)
    (dk : ContainerVolumeMountDisk) (i : Int)
    (hidx : dk.Index = some i) (hge : (L.length : Int) ≤ i) :
    d.ValidateCreateData m (Except.ok L) ⟨some dk⟩ =
      ⟨⟨some dk⟩, Except.error (Fault.error (NewInputParameterError
        ("disk.index " ++ fmtInt i ++ " is large than disk size " ++ fmtLen L.length)))⟩ := by
  have h0 : 0 ≤ i := le_trans (Int.ofNat_nonneg _) hge
  simp only [disk.ValidateCreateData, structural_ok_of_index d dk i hidx h0, hidx,
    ge_iff_le, if_pos hge]

theorem ValidateCreateData_index_in (d : disk) (m : OverlayMethods) (L : List SDisk)
    (dk : ContainerVolumeMountDisk) (i : Int) (e : SDisk)
    (hidx : dk.Index = some i) (h0 : 0 ≤ i) (he : L.get? i.toNat = some e) :
    d.ValidateCreateData m (Except.ok L) ⟨some dk⟩ =
      if e.TemplateId ≠ "" ∧ dk.SubDirectory = "" then
        ⟨⟨some ⟨none, e.GetId, dk.SubDirectory, dk.Overlay⟩⟩,
          Except.error (Fault.error (NewInputParameterError
            ("sub_directory is required when disk has template_id " ++ e.TemplateId)))⟩
      else
        d.finish m ⟨some ⟨none, e.GetId, dk.SubDirectory, dk.Overlay⟩⟩
          ⟨none, e.GetId, dk.SubDirectory, dk.Overlay⟩ := by
  have hlt : i.toNat < L.length := by
    rcases Nat.lt_or_ge i.toNat L.length with h | h
    · exact h
    · rw [List.get?_eq_none.mpr h] at he
      cases he
  have hlt2 : ¬ ((L.length : Int) ≤ i) := by omega
  simp only [disk.ValidateCreateData, structural_ok_of_index d dk i hidx h0, hidx,
    ge_iff_le, if_neg hlt2, he]

theorem ValidateCreateData_id_found (d : disk) (m : OverlayMethods) (L : List SDisk)
    (dk : ContainerVolumeMountDisk) (e : SDisk)
    (hidx : dk.Index = none) (hid : dk.Id ≠ "") (he : L.find? (matchesRef dk.Id) = some e) :
    d.ValidateCreateData m (Except.ok L) ⟨some dk⟩ =
      if e.TemplateId ≠ "" ∧ dk.SubDirectory = "" then
        ⟨⟨some ⟨none, e.GetId, dk.SubDirectory, dk.Overlay⟩⟩,
          Except.error (Fault.error (NewInputParameterError
            ("sub_directory is required when disk has template_id " ++ e.TemplateId)))⟩
      else
        d.finish m ⟨some ⟨none, e.GetId, dk.SubDirectory, dk.Overlay⟩⟩
          ⟨none, e.GetId, dk.SubDirectory, dk.Overlay⟩ := by
  by_cases hc : e.TemplateId ≠ "" ∧ dk.SubDirectory = ""
  · simp only [disk.ValidateCreateData, structural_ok_of_id d dk hidx hid, hidx, if_neg hid,
      lookupLoop_of_find dk.Id dk.SubDirectory e L he, if_pos hc]
  · simp only [disk.ValidateCreateData, structural_ok_of_id d dk hidx hid, hidx, if_neg hid,
      lookupLoop_of_find dk.Id dk.SubDirectory e L he, if_neg hc]

theorem ValidateCreateData_id_missing (d : disk) (m : OverlayMethods) (L : List SDisk)
    (dk : ContainerVolumeMountDisk)
    (hidx : dk.Index = none) (hid : dk.Id ≠ "") (he : L.find? (matchesRef dk.Id) = none) :
    d.ValidateCreateData m (Except.ok L) ⟨some dk⟩ =
      ⟨⟨some dk⟩, Except.error (Fault.error (NewNotFoundError
        ("not found pod disk by " ++ dk.Id)))⟩ := by
  simp only [disk.ValidateCreateData, structural_ok_of_id d dk hidx hid, hidx, if_neg hid,
    lookupLoop_of_find_none dk.Id dk.SubDirectory L he]

theorem finish_ok (d : disk) (m : OverlayMethods) (vm vm' : ContainerVolumeMount)
    (dk : ContainerVolumeMountDisk) (h : (d.finish m vm dk).ret = Except.ok vm') : vm' = vm := by
  unfold disk.finish at h
  split at h
  · cases h
  · cases h
  · cases h; rfl

/-- C2: with the index unset and a non-empty reference `s` that some entry of the disk list
matches by id or by name, a successful `ValidateCreateData` returns the canonical id of the
first entry, in list order, whose id or name equals `s`: the list splits as
`before ++ e :: after` with no entry of `before` matching, `e` matching, and the returned
`Disk.Id` is `e.GetId`. -/
theorem C2_first_match_wins (d : disk) (m : OverlayMethods) (L : List SDisk)
    (dk : ContainerVolumeMountDisk) (vm' : ContainerVolumeMount)
    (hidx : dk.Index = none) (hid : dk.Id ≠ "")
    (hex : ∃ x ∈ L, x.GetId = dk.Id ∨ x.GetName = dk.Id)
    (hok : (d.ValidateCreateData m (Except.ok L) ⟨some dk⟩).ret = Except.ok vm') :
    ∃ before e after, L = before ++ e :: after ∧
      (∀ x ∈ before, ¬ (x.GetId = dk.Id ∨ x.GetName = dk.Id)) ∧
      (e.GetId = dk.Id ∨ e.GetName = dk.Id) ∧
      vm' = ⟨some ⟨none, e.GetId, dk.SubDirectory, dk.Overlay⟩⟩ := by
  cases hf : L.find? (matchesRef dk.Id) with
  | none =>
    obtain ⟨x, hx, hm⟩ := hex
    exact absurd hm ((find_none_iff_no_match dk.Id L).mp hf x hx)
  | some e =>
    obtain ⟨hp, before, after, hL, hb⟩ := List.find?_eq_some.mp hf
    refine ⟨before, e, after, hL, ?_, ?_, ?_⟩
    · intro x hx hm
      have := hb x hx
      simp [matchesRef, hm] at this
    · simpa [matchesRef] using hp
    · rw [ValidateCreateData_id_found d m L dk e hidx hid hf] at hok
      split at hok
      · cases hok
      · exact finish_ok d m _ vm' _ hok

/-- C2 on a list where the first entry matches by name and a later one by id: the name
match wins and is resolved to its id. -/
theorem C2_first_match_wins_witness :
    ∃ before e after,
      [SDisk.mk "d1" "alpha" "", SDisk.mk "alpha" "beta" ""] = before ++ e :: after ∧
      (∀ x ∈ before, ¬ (x.GetId = "alpha" ∨ x.GetName = "alpha")) ∧
      (e.GetId = "alpha" ∨ e.GetName = "alpha") ∧
      (⟨some ⟨none, "d1", "", none⟩⟩ : ContainerVolumeMount) =
        ⟨some ⟨none, e.GetId, "", none⟩⟩ :=
  C2_first_match_wins newDisk apisOverlayMethods
    [SDisk.mk "d1" "alpha" "", SDisk.mk "alpha" "beta" ""] ⟨none, "alpha", "", none⟩
    ⟨some ⟨none, "d1", "", none⟩⟩ rfl (by decide)
    ⟨SDisk.mk "d1" "alpha" "", by simp, Or.inr rfl⟩ rfl

/-! ## Error classes of the overlay step -/

theorem diskOverlayDir_loop_kind (e : Error) :
    ∀ (l : List String) (idx : Nat), diskOverlayDir.loop idx l = some e →
      e.kind = ErrorClass.NotEmptyError ∨ e.kind = ErrorClass.InputParameterError := by
  intro l
  induction l with
  | nil => intro idx h; simp [diskOverlayDir.loop] at h
  | cons ld rest ih =>
    intro idx h
    unfold diskOverlayDir.loop at h
    split at h
    · cases h; exact Or.inl rfl
    · split at h
      · cases h; exact Or.inr rfl
      · exact ih _ h

theorem diskOverlayDir_kind (ov : ContainerVolumeMountDiskOverlay) (e : Error)
    (h : diskOverlayDir.validateCreateData ov = some e) :
    e.kind = ErrorClass.NotEmptyError ∨ e.kind = ErrorClass.InputParameterError := by
  unfold diskOverlayDir.validateCreateData at h
  split at h
  · cases h; exact Or.inl rfl
  · exact diskOverlayDir_loop_kind e _ _ h

theorem newDisk_validateOverlay_kind (m : OverlayMethods) (dk : ContainerVolumeMountDisk)
    (e : Error) (h : newDisk.validateOverlay m dk = Except.error (Fault.error e)) :
    e.kind = ErrorClass.NotEmptyError ∨ e.kind = ErrorClass.InputParameterError := by
  unfold disk.validateOverlay at h
  split at h
  · cases h
  · split at h
    · cases h; exact Or.inr rfl
    · split at h
      · cases h
      · rename_i drv hdrv
        split at h
        · rename_i err herr
          cases h
          have hd : drv = newDiskOverlayDir := by
            simp only [disk.getOverlayDriver, newDisk] at hdrv
            split at hdrv
            · cases hdrv; rfl
            · cases hdrv
          subst hd
          exact diskOverlayDir_kind _ err herr
        · cases h

theorem newDisk_finish_kind (m : OverlayMethods) (vm : ContainerVolumeMount)
    (dk : ContainerVolumeMountDisk) (e : Error)
    (h : (newDisk.finish m vm dk).ret = Except.error (Fault.error e)) :
    e.kind = ErrorClass.NotEmptyError ∨ e.kind = ErrorClass.InputParameterError := by
  unfold disk.finish at h
  split at h
  · rename_i err herr
    cases h
    exact newDisk_validateOverlay_kind m dk err herr
  · cases h
  · cases h

theorem structural_error_kind (d : disk) (vm : ContainerVolumeMount) (e : Error)
    (h : d.validateCreateData vm = Except.error e) :
    e.kind = ErrorClass.NotEmptyError ∨ e.kind = ErrorClass.InputParameterError := by
  unfold disk.validateCreateData at h
  split at h
  · cases h; exact Or.inl rfl
  · split at h
    · cases h; exact Or.inl rfl
    · split at h
      · split at h
        · cases h; exact Or.inr rfl
        · cases h
      · cases h

theorem structural_error_propagates (d : disk) (m : OverlayMethods)
    (g : Except Error (List SDisk)) (vm : ContainerVolumeMount) (e : Error)
    (h : d.validateCreateData vm = Except.error e) :
    d.ValidateCreateData m g vm = ⟨vm, Except.error (Fault.error e)⟩ := by
  simp only [disk.ValidateCreateData, h]

theorem structural_error_propagates_pod (d : disk) (P : List DiskConfig)
    (vm : ContainerVolumeMount) (e : Error)
    (h : d.validateCreateData vm = Except.error e) :
    d.ValidatePodCreateData vm P = ⟨vm, Except.error (Fault.error e)⟩ := by
  simp only [disk.ValidatePodCreateData, h]

/-- C3: with the registry of `newDisk` and a disk list `L` that was retrieved, the call
`ValidateCreateData` fails with kind `NotFound` exactly when the mount's disk is non-nil,
its index is unset, its id is non-empty and no entry of `L` has that id or that name;
subDirectory and overlay play no part. -/
theorem C3_not_found_iff (m : OverlayMethods) (L : List SDisk) (vm : ContainerVolumeMount) :
    (newDisk.ValidateCreateData m (Except.ok L) vm).failsWith NotFound ↔
      ∃ dk, vm.Disk = some dk ∧ dk.Index = none ∧ dk.Id ≠ "" ∧
        ∀ x ∈ L, ¬ (x.GetId = dk.Id ∨ x.GetName = dk.Id) := by
  constructor
  · rintro ⟨err, hret, hk⟩
    have hkind : ¬ (err.kind = ErrorClass.NotEmptyError ∨
        err.kind = ErrorClass.InputParameterError) := by
      rw [hk]; decide
    cases hs : newDisk.validateCreateData vm with
    | error e0 =>
      rw [structural_error_propagates newDisk m _ vm e0 hs] at hret
      cases hret
      exact absurd (structural_error_kind newDisk vm err hs) hkind
    | ok v0 =>
      obtain ⟨dko⟩ := vm
      cases dko with
      | none => simp [disk.validateCreateData] at hs
      | some dk =>
        refine ⟨dk, rfl, ?_⟩
        cases hidx : dk.Index with
        | some i =>
          exfalso
          have h0 : 0 ≤ i := by
            by_contra hneg
            simp [disk.validateCreateData, hidx, lt_of_not_ge hneg] at hs
          rcases le_or_lt (L.length : Int) i with hge | hlt
          · rw [ValidateCreateData_index_large newDisk m L dk i hidx hge] at hret
            cases hret
            exact hkind (Or.inr rfl)
          · obtain ⟨e, he⟩ := get?_toNat_of_lt SDisk L i h0 hlt
            rw [ValidateCreateData_index_in newDisk m L dk i e hidx h0 he] at hret
            split at hret
            · cases hret
              exact hkind (Or.inr rfl)
            · exact hkind (newDisk_finish_kind m _ _ err hret)
        | none =>
          have hid : dk.Id ≠ "" := by
            intro hid
            simp [disk.validateCreateData, hidx, hid] at hs
          refine ⟨rfl, hid, ?_⟩
          cases hf : L.find? (matchesRef dk.Id) with
          | none => exact (find_none_iff_no_match dk.Id L).mp hf
          | some e =>
            exfalso
            rw [ValidateCreateData_id_found newDisk m L dk e hidx hid hf] at hret
            split at hret
            · cases hret
              exact hkind (Or.inr rfl)
            · exact hkind (newDisk_finish_kind m _ _ err hret)
  · rintro ⟨dk, hdk, hidx, hid, hno⟩
    obtain ⟨dko⟩ := vm
    simp only at hdk
    subst hdk
    have hf := (find_none_iff_no_match dk.Id L).mpr hno
    rw [ValidateCreateData_id_missing newDisk m L dk hidx hid hf]
    exact ⟨_, rfl, rfl⟩

/-- C4 as stated fails: on the specification's example (disks `d1` and template-backed
`d2`, index 1, empty subDirectory) the call fails with class `InputParameterError`
(`InvalidValue`), so it does not fail with `MissingField`. -/
theorem C4_counterexample :
    (newDisk.ValidateCreateData apisOverlayMethods
        (Except.ok [SDisk.mk "d1" "n1" "", SDisk.mk "d2" "n2" "tpl1"])
        ⟨some ⟨some 1, "", "", none⟩⟩).ret =
      Except.error (Fault.error ⟨ErrorClass.InputParameterError,
        "sub_directory is required when disk has template_id tpl1"⟩) ∧
    ¬ (newDisk.ValidateCreateData apisOverlayMethods
        (Except.ok [SDisk.mk "d1" "n1" "", SDisk.mk "d2" "n2" "tpl1"])
        ⟨some ⟨some 1, "", "", none⟩⟩).failsWith MissingField := by
  have h : (newDisk.ValidateCreateData apisOverlayMethods
        (Except.ok [SDisk.mk "d1" "n1" "", SDisk.mk "d2" "n2" "tpl1"])
        ⟨some ⟨some 1, "", "", none⟩⟩).ret =
      Except.error (Fault.error ⟨ErrorClass.InputParameterError,
        "sub_directory is required when disk has template_id tpl1"⟩) := rfl
  refine ⟨h, ?_⟩
  rintro ⟨e, hret, hk⟩
  rw [h] at hret
  cases hret
  exact absurd hk (by decide)

/-- C4 (amended): when the disk reference (an in-range index, or an id or name that
matches) resolves to a disk with a non-empty template id and the mount's subDirectory is
empty, `ValidateCreateData` fails with kind `InvalidValue` (`InputParameterError`) and the
message names that template id. -/
theorem C4_template_requires_subdirectory (d : disk) (m : OverlayMethods) (L : List SDisk)
    (dk : ContainerVolumeMountDisk) (e : SDisk)
    (hres : resolvesTo L dk e) (htpl : e.TemplateId ≠ "") (hsub : dk.SubDirectory = "") :
    ∃ err, (d.ValidateCreateData m (Except.ok L) ⟨some dk⟩).ret = Except.error (Fault.error err) ∧
      err.kind = InvalidValue ∧ mentions err.msg e.TemplateId := by
  have hc : e.TemplateId ≠ "" ∧ dk.SubDirectory = "" := ⟨htpl, hsub⟩
  rcases hres with ⟨i, hidx, h0, _, he⟩ | ⟨hidx, hid, hf⟩
  · rw [ValidateCreateData_index_in d m L dk i e hidx h0 he, if_pos hc]
    exact ⟨_, rfl, rfl, mentions_append_right _ _⟩
  · rw [ValidateCreateData_id_found d m L dk e hidx hid hf, if_pos hc]
    exact ⟨_, rfl, rfl, mentions_append_right _ _⟩

/-- C4 (amended) on a reference by name to a template-backed disk. -/
theorem C4_template_requires_subdirectory_witness :
    ∃ err, (newDisk.ValidateCreateData apisOverlayMethods
        (Except.ok [SDisk.mk "d1" "n1" "", SDisk.mk "d2" "n2" "tpl1"])
        ⟨some ⟨none, "n2", "", none⟩⟩).ret = Except.error (Fault.error err) ∧
      err.kind = InvalidValue ∧ mentions err.msg "tpl1" :=
  C4_template_requires_subdirectory newDisk apisOverlayMethods
    [SDisk.mk "d1" "n1" "", SDisk.mk "d2" "n2" "tpl1"] ⟨none, "n2", "", none⟩
    (SDisk.mk "d2" "n2" "tpl1") (Or.inr ⟨rfl, by decide, by decide⟩) (by decide) rfl

/-- C5: an index `i` with `i ≥ len(L)` makes `ValidateCreateData` fail with kind
`InvalidValue`, and the message contains the decimal rendering of `i` and of `len(L)`,
whatever `Disk.Id` holds. -/
theorem C5_index_out_of_range (d : disk) (m : OverlayMethods) (L : List SDisk)
    (dk : ContainerVolumeMountDisk) (i : Int)
    (hidx : dk.Index = some i) (hge : (L.length : Int) ≤ i) :
    ∃ err, (d.ValidateCreateData m (Except.ok L) ⟨some dk⟩).ret = Except.error (Fault.error err) ∧
      err.kind = InvalidValue ∧ mentions err.msg (fmtInt i) ∧
      mentions err.msg (fmtLen L.length) := by
  rw [ValidateCreateData_index_large d m L dk i hidx hge]
  refine ⟨_, rfl, rfl, ?_, ?_⟩
  · exact mentions_append_left _ _ _ (mentions_append_mid _ _ _)
  · exact mentions_append_right _ _

/-- C5 on the specification's example: three disks, index 5, with an id also set. -/
theorem C5_index_out_of_range_witness :
    ∃ err, (newDisk.ValidateCreateData apisOverlayMethods
        (Except.ok [SDisk.mk "d1" "n1" "", SDisk.mk "d2" "n2" "", SDisk.mk "d3" "n3" ""])
        ⟨some ⟨some 5, "d1", "", none⟩⟩).ret = Except.error (Fault.error err) ∧
      err.kind = InvalidValue ∧ mentions err.msg (fmtInt 5) ∧
      mentions err.msg (fmtLen [SDisk.mk "d1" "n1" "", SDisk.mk "d2" "n2" "",
        SDisk.mk "d3" "n3" ""].length) :=
  C5_index_out_of_range newDisk apisOverlayMethods
    [SDisk.mk "d1" "n1" "", SDisk.mk "d2" "n2" "", SDisk.mk "d3" "n3" ""]
    ⟨some 5, "d1", "", none⟩ 5 rfl (by decide)

/-! ## The structural check, through both entry points -/

theorem pod_negative_index_fails (d : disk) (vm : ContainerVolumeMount)
    (dk : ContainerVolumeMountDisk) (i : Int)
    (hdk : vm.Disk = some dk) (hidx : dk.Index = some i) (hneg : i < 0) (P : List DiskConfig) :
    (d.ValidatePodCreateData vm P).failsWith InvalidValue := by
  have he : d.validateCreateData vm =
      Except.error (NewInputParameterError "index is less than 0") := by
    simp [disk.validateCreateData, hdk, hidx, hneg]
  rw [structural_error_propagates_pod d P vm _ he]
  exact ⟨_, rfl, rfl⟩

/-- C6: a mount whose disk is nil, or whose disk has the index unset and an empty id, makes
both `ValidateCreateData` and `ValidatePodCreateData` fail with kind `MissingField`, for
every outcome of the disk retrieval (a list, or an error) and every pending disk list. -/
theorem C6_missing_reference (d : disk) (m : OverlayMethods) (vm : ContainerVolumeMount)
    (h : vm.Disk = none ∨ ∃ dk, vm.Disk = some dk ∧ dk.Index = none ∧ dk.Id = "") :
    (∀ g : Except Error (List SDisk), (d.ValidateCreateData m g vm).failsWith MissingField) ∧
    (∀ P : List DiskConfig, (d.ValidatePodCreateData vm P).failsWith MissingField) := by
  have hs : ∃ e, d.validateCreateData vm = Except.error e ∧ e.kind = MissingField := by
    rcases h with h | ⟨dk, hdk, hidx, hid⟩
    · exact ⟨NewNotEmptyError "disk is nil", by simp [disk.validateCreateData, h], rfl⟩
    · exact ⟨NewNotEmptyError "one of index or id is required",
        by simp [disk.validateCreateData, hdk, hidx, hid], rfl⟩
  obtain ⟨e, he, hk⟩ := hs
  constructor
  · intro g
    rw [structural_error_propagates d m g vm e he]
    exact ⟨e, rfl, hk⟩
  · intro P
    rw [structural_error_propagates_pod d P vm e he]
    exact ⟨e, rfl, hk⟩

/-- C6 on a mount without a disk, the disk retrieval failing. -/
theorem C6_missing_reference_witness :
    (∀ g : Except Error (List SDisk),
      (newDisk.ValidateCreateData apisOverlayMethods g ⟨none⟩).failsWith MissingField) ∧
    (∀ P : List DiskConfig, (newDisk.ValidatePodCreateData ⟨none⟩ P).failsWith MissingField) :=
  C6_missing_reference newDisk apisOverlayMethods ⟨none⟩ (Or.inl rfl)

/-- C7: a negative index makes both `ValidateCreateData` and `ValidatePodCreateData` fail
with kind `InvalidValue`, whatever the id, subDirectory, overlay and disk list are. -/
theorem C7_negative_index (d : disk) (m : OverlayMethods) (vm : ContainerVolumeMount)
    (dk : ContainerVolumeMountDisk) (i : Int)
    (hdk : vm.Disk = some dk) (hidx : dk.Index = some i) (hneg : i < 0) :
    (∀ g : Except Error (List SDisk), (d.ValidateCreateData m g vm).failsWith InvalidValue) ∧
    (∀ P : List DiskConfig, (d.ValidatePodCreateData vm P).failsWith InvalidValue) := by
  have he : d.validateCreateData vm =
      Except.error (NewInputParameterError "index is less than 0") := by
    simp [disk.validateCreateData, hdk, hidx, hneg]
  constructor
  · intro g
    rw [structural_error_propagates d m g vm _ he]
    exact ⟨_, rfl, rfl⟩
  · intro P
    rw [structural_error_propagates_pod d P vm _ he]
    exact ⟨_, rfl, rfl⟩

/-- C7 on index `-1` with an id, a subDirectory and an overlay set. -/
theorem C7_negative_index_witness :
    (∀ g : Except Error (List SDisk),
      (newDisk.ValidateCreateData apisOverlayMethods g
        ⟨some ⟨some (-1), "d1", "x", some ⟨"directory", ["/a"]⟩⟩⟩).failsWith InvalidValue) ∧
    (∀ P : List DiskConfig,
      (newDisk.ValidatePodCreateData
        ⟨some ⟨some (-1), "d1", "x", some ⟨"directory", ["/a"]⟩⟩⟩ P).failsWith InvalidValue) :=
  C7_negative_index newDisk apisOverlayMethods _ ⟨some (-1), "d1", "x", some ⟨"directory", ["/a"]⟩⟩
    (-1) rfl rfl (by decide)

/-! ## Pod creation -/

/-- C8: `ValidatePodCreateData` succeeds exactly when the mount's disk is non-nil, its id is
empty, its index is set with `0 ≤ index < len(P)`, and the pending disk at that index has
an empty image id or the mount's subDirectory is non-empty. -/
theorem C8_pod_creation_succeeds_iff (d : disk) (vm : ContainerVolumeMount)
    (P : List DiskConfig) :
    (d.ValidatePodCreateData vm P).succeeds ↔
      ∃ dk i e, vm.Disk = some dk ∧ dk.Id = "" ∧ dk.Index = some i ∧ 0 ≤ i ∧
        i < (P.length : Int) ∧ P.get? i.toNat = some e ∧
        (e.ImageId = "" ∨ dk.SubDirectory ≠ "") := by
  obtain ⟨dko⟩ := vm
  constructor
  · rintro ⟨u, hret⟩
    cases dko with
    | none => simp [disk.ValidatePodCreateData, disk.validateCreateData] at hret
    | some dk =>
      cases hidx : dk.Index with
      | none =>
        by_cases hid : dk.Id = ""
        · simp [disk.ValidatePodCreateData, disk.validateCreateData, hidx, hid] at hret
        · simp [disk.ValidatePodCreateData, disk.validateCreateData, hidx, hid] at hret
      | some i =>
        by_cases hneg : i < 0
        · simp [disk.ValidatePodCreateData, disk.validateCreateData, hidx, hneg] at hret
        · by_cases hid : dk.Id = ""
          · by_cases hge : (P.length : Int) ≤ i
            · simp [disk.ValidatePodCreateData, disk.validateCreateData, hidx, hneg, hid,
                hge] at hret
            · obtain ⟨e, he⟩ := get?_toNat_of_lt DiskConfig P i (not_lt.mp hneg)
                (not_le.mp hge)
              refine ⟨dk, i, e, rfl, hid, hidx, not_lt.mp hneg, not_le.mp hge, he, ?_⟩
              by_contra hc
              have hc2 : e.ImageId ≠ "" ∧ dk.SubDirectory = "" := by
                constructor
                · intro h; exact hc (Or.inl h)
                · by_contra h; exact hc (Or.inr h)
              simp only [disk.ValidatePodCreateData, structural_ok_of_index d dk i hidx
                (not_lt.mp hneg), hid, ne_eq, not_true_eq_false, if_false, hidx, if_neg hneg,
                ge_iff_le, if_neg hge, he, if_pos hc2] at hret
              cases hret
          · simp [disk.ValidatePodCreateData, disk.validateCreateData, hidx, hneg, hid]
              at hret
  · rintro ⟨dk, i, e, hdk, hid, hidx, h0, hlt, he, hc⟩
    simp only at hdk
    subst hdk
    have hc2 : ¬ (e.ImageId ≠ "" ∧ dk.SubDirectory = "") := by
      rintro ⟨h1, h2⟩
      rcases hc with h | h
      · exact h1 h
      · exact h h2
    refine ⟨(), ?_⟩
    simp only [disk.ValidatePodCreateData, structural_ok_of_index d dk i hidx h0, hid, ne_eq,
      not_true_eq_false, if_false, hidx, if_neg (not_lt.mpr h0), ge_iff_le,
      if_neg (not_le.mpr hlt), he, if_neg hc2]

/-- C9: a non-empty `Disk.Id` makes `ValidatePodCreateData` fail with kind `InvalidValue`,
whatever the index (unset, negative, in range, out of range), subDirectory, overlay and
pending disk list are. -/
theorem C9_pod_creation_rejects_id (d : disk) (vm : ContainerVolumeMount)
    (dk : ContainerVolumeMountDisk) (P : List DiskConfig)
    (hdk : vm.Disk = some dk) (hid : dk.Id ≠ "") :
    (d.ValidatePodCreateData vm P).failsWith InvalidValue := by
  obtain ⟨dko⟩ := vm
  simp only at hdk
  subst hdk
  cases hidx : dk.Index with
  | none =>
    simp only [disk.ValidatePodCreateData, structural_ok_of_id d dk hidx hid, ne_eq, hid,
      not_false_eq_true, if_true]
    exact ⟨_, rfl, rfl⟩
  | some i =>
    by_cases hneg : i < 0
    · exact (pod_negative_index_fails d ⟨some dk⟩ dk i rfl hidx hneg P)
    · simp only [disk.ValidatePodCreateData, structural_ok_of_index d dk i hidx
        (not_lt.mp hneg), ne_eq, hid, not_false_eq_true, if_true]
      exact ⟨_, rfl, rfl⟩

/-- C9 on an id set next to an in-range index. -/
theorem C9_pod_creation_rejects_id_witness :
    (newDisk.ValidatePodCreateData ⟨some ⟨some 0, "d1", "x", none⟩⟩
      [DiskConfig.mk ""]).failsWith InvalidValue :=
  C9_pod_creation_rejects_id newDisk _ ⟨some 0, "d1", "x", none⟩ [DiskConfig.mk ""] rfl
    (by decide)

/-- C10 as stated fails: on the specification's example (pending disks with image ids
empty and `img1`, index 1, empty subDirectory) the call fails with class
`InputParameterError` (`InvalidValue`), so it does not fail with `MissingField`. -/
theorem C10_counterexample :
    (newDisk.ValidatePodCreateData ⟨some ⟨some 1, "", "", none⟩⟩
        [DiskConfig.mk "", DiskConfig.mk "img1"]).ret =
      Except.error (Fault.error ⟨ErrorClass.InputParameterError,
        "sub_directory is required when disk has image_id img1"⟩) ∧
    ¬ (newDisk.ValidatePodCreateData ⟨some ⟨some 1, "", "", none⟩⟩
        [DiskConfig.mk "", DiskConfig.mk "img1"]).failsWith MissingField := by
  have h : (newDisk.ValidatePodCreateData ⟨some ⟨some 1, "", "", none⟩⟩
        [DiskConfig.mk "", DiskConfig.mk "img1"]).ret =
      Except.error (Fault.error ⟨ErrorClass.InputParameterError,
        "sub_directory is required when disk has image_id img1"⟩) := rfl
  refine ⟨h, ?_⟩
  rintro ⟨e, hret, hk⟩
  rw [h] at hret
  cases hret
  exact absurd hk (by decide)

/-- C10 (amended): with an empty `Disk.Id`, an index in range and an empty subDirectory, a
pending disk that carries a non-empty image id makes `ValidatePodCreateData` fail with kind
`InvalidValue` (`InputParameterError`). -/
theorem C10_image_requires_subdirectory (d : disk) (P : List DiskConfig)
    (dk : ContainerVolumeMountDisk) (i : Int) (e : DiskConfig)
    (hid : dk.Id = "") (hidx : dk.Index = some i) (h0 : 0 ≤ i) (hlt : i < (P.length : Int))
    (hsub : dk.SubDirectory = "") (he : P.get? i.toNat = some e) (himg : e.ImageId ≠ "") :
    (d.ValidatePodCreateData ⟨some dk⟩ P).failsWith InvalidValue := by
  have hc : e.ImageId ≠ "" ∧ dk.SubDirectory = "" := ⟨himg, hsub⟩
  simp only [disk.ValidatePodCreateData, structural_ok_of_index d dk i hidx h0, hid, ne_eq,
    not_true_eq_false, if_false, hidx, if_neg (not_lt.mpr h0), ge_iff_le,
    if_neg (not_le.mpr hlt), he, if_pos hc]
  exact ⟨_, rfl, rfl⟩

/-- C10 (amended) on the specification's example. -/
theorem C10_image_requires_subdirectory_witness :
    (newDisk.ValidatePodCreateData ⟨some ⟨some 1, "", "", none⟩⟩
      [DiskConfig.mk "", DiskConfig.mk "img1"]).failsWith InvalidValue :=
  C10_image_requires_subdirectory newDisk [DiskConfig.mk "", DiskConfig.mk "img1"]
    ⟨some 1, "", "", none⟩ 1 (DiskConfig.mk "img1") rfl rfl (by decide) (by decide) rfl rfl
    (by decide)

/-! ## The directory overlay validator -/

theorem diskOverlayDir_loop_first_offender (x : String) (after : List String) :
    ∀ (before : List String) (idx : Nat), (∀ y ∈ before, passableDir y) →
      diskOverlayDir.loop idx (before ++ x :: after) =
        if x = "" then
          some (NewNotEmptyError ("empty " ++ fmtLen (idx + before.length) ++ " dir"))
        else if x = "/" then
          some (NewInputParameterError "can't use '/' as lower_dir")
        else
          diskOverlayDir.loop (idx + before.length + 1) after := by
  intro before
  induction before with
  | nil =>
    intro idx _
    simp only [List.nil_append, List.length_nil, Nat.add_zero, diskOverlayDir.loop]
  | cons b rest ih =>
    intro idx hb
    have hbp : passableDir b := hb b (List.mem_cons_self _ _)
    have hrest : ∀ y ∈ rest, passableDir y := fun y hy => hb y (List.mem_cons_of_mem _ hy)
    have hstep : diskOverlayDir.loop idx (b :: (rest ++ x :: after)) =
        diskOverlayDir.loop (idx + 1) (rest ++ x :: after) := by
      simp only [diskOverlayDir.loop, if_neg hbp.1, if_neg hbp.2]
    have e1 : idx + 1 + rest.length = idx + (rest.length + 1) := by omega
    rw [List.cons_append, hstep, ih (idx + 1) hrest, List.length_cons, e1]

theorem diskOverlayDir_loop_none_iff :
    ∀ (l : List String) (idx : Nat),
      diskOverlayDir.loop idx l = none ↔ ∀ x ∈ l, passableDir x := by
  intro l
  induction l with
  | nil => intro idx; simp [diskOverlayDir.loop]
  | cons a rest ih =>
    intro idx
    by_cases h1 : a = ""
    · simp [diskOverlayDir.loop, h1, passableDir]
    · by_cases h2 : a = "/"
      · simp [diskOverlayDir.loop, h2, passableDir]
      · simp only [diskOverlayDir.loop, if_neg h1, if_neg h2, ih (idx + 1), List.mem_cons,
          forall_eq_or_imp, passableDir]
        constructor
        · intro h; exact ⟨⟨h1, h2⟩, h⟩
        · intro h; exact h.2

theorem diskOverlayDir_first_offender (ov : ContainerVolumeMountDiskOverlay)
    (before : List String) (x : String) (after : List String)
    (hl : ov.LowerDir = before ++ x :: after) (hb : ∀ y ∈ before, passableDir y) :
    diskOverlayDir.validateCreateData ov =
      if x = "" then
        some (NewNotEmptyError ("empty " ++ fmtLen before.length ++ " dir"))
      else if x = "/" then
        some (NewInputParameterError "can't use '/' as lower_dir")
      else
        diskOverlayDir.loop (before.length + 1) after := by
  have hne : ¬ (ov.LowerDir.length = 0) := by rw [hl]; simp
  simp only [diskOverlayDir.validateCreateData, if_neg hne]
  rw [hl, diskOverlayDir_loop_first_offender x after before 0 hb]
  simp only [Nat.zero_add]

/-- C11: the directory overlay validator succeeds exactly when `lowerDir` is non-empty and
no entry is the empty string or `/`; it fails with `MissingField` on the empty list and
when the first offending entry, in list order, is the empty string, and with `InvalidValue`
when the first offending entry is `/`. -/
theorem C11_directory_overlay_outcome (ov : ContainerVolumeMountDiskOverlay) :
    (diskOverlayDir.validateCreateData ov = none ↔
      ov.LowerDir ≠ [] ∧ ∀ x ∈ ov.LowerDir, x ≠ "" ∧ x ≠ "/") ∧
    (ov.LowerDir = [] → rejectsWith (diskOverlayDir.validateCreateData ov) MissingField) ∧
    (∀ before x after, ov.LowerDir = before ++ x :: after →
      (∀ y ∈ before, y ≠ "" ∧ y ≠ "/") →
      (x = "" → rejectsWith (diskOverlayDir.validateCreateData ov) MissingField) ∧
      (x = "/" → rejectsWith (diskOverlayDir.validateCreateData ov) InvalidValue)) := by
  refine ⟨?_, ?_, ?_⟩
  · by_cases hl : ov.LowerDir = []
    · simp [diskOverlayDir.validateCreateData, hl]
    · have hne : ¬ (ov.LowerDir.length = 0) := by
        intro h; exact hl (List.length_eq_zero.mp h)
      simp only [diskOverlayDir.validateCreateData, if_neg hne,
        diskOverlayDir_loop_none_iff ov.LowerDir 0, ne_eq, hl, not_false_eq_true, true_and,
        passableDir]
  · intro hl
    refine ⟨NewNotEmptyError "lower_dir is required", ?_, rfl⟩
    simp [diskOverlayDir.validateCreateData, hl]
  · intro before x after hl hb
    have heq := diskOverlayDir_first_offender ov before x after hl hb
    constructor
    · intro hx
      rw [heq, if_pos hx]
      exact ⟨_, rfl, rfl⟩
    · intro hx
      have hx0 : ¬ (x = "") := by rw [hx]; decide
      rw [heq, if_neg hx0, if_pos hx]
      exact ⟨_, rfl, rfl⟩

/-- C11 on the two orders of the offending entries: `["/", ""]` gives `InvalidValue` and
`["", "/"]` gives `MissingField`. -/
theorem C11_directory_overlay_outcome_witness :
    rejectsWith (diskOverlayDir.validateCreateData ⟨"directory", ["/", ""]⟩) InvalidValue ∧
    rejectsWith (diskOverlayDir.validateCreateData ⟨"directory", ["", "/"]⟩) MissingField :=
  ⟨((C11_directory_overlay_outcome ⟨"directory", ["/", ""]⟩).2.2 [] "/" [""] rfl
      (by intro y hy; cases hy)).2 rfl,
   ((C11_directory_overlay_outcome ⟨"directory", ["", "/"]⟩).2.2 [] "" ["/"] rfl
      (by intro y hy; cases hy)).1 rfl⟩

/-- C12 as stated fails: on `["/a", "/"]` the validator fails with the fixed message
`can't use '/' as lower_dir`, in which the position `1` of the offending entry does not
occur. -/
theorem C12_counterexample :
    diskOverlayDir.validateCreateData ⟨"directory", ["/a", "/"]⟩ =
      some ⟨ErrorClass.InputParameterError, "can't use '/' as lower_dir"⟩ ∧
    ¬ mentions "can't use '/' as lower_dir" (fmtLen 1) := by
  refine ⟨rfl, ?_⟩
  unfold mentions
  decide

/-- C12 (amended): on a non-empty `lowerDir` whose first offending entry sits at position
`k` (zero-based), the validator's message is `empty k dir`, which reports `k`, when that
entry is the empty string; when that entry is `/` the message is the fixed text
`can't use '/' as lower_dir`. -/
theorem C12_first_offender_message (ov : ContainerVolumeMountDiskOverlay)
    (before : List String) (x : String) (after : List String)
    (hl : ov.LowerDir = before ++ x :: after) (hb : ∀ y ∈ before, y ≠ "" ∧ y ≠ "/") :
    (x = "" → ∃ e, diskOverlayDir.validateCreateData ov = some e ∧
      e.msg = "empty " ++ fmtLen before.length ++ " dir" ∧
      mentions e.msg (fmtLen before.length)) ∧
    (x = "/" → ∃ e, diskOverlayDir.validateCreateData ov = some e ∧
      e.msg = "can't use '/' as lower_dir") := by
  have heq := diskOverlayDir_first_offender ov before x after hl hb
  constructor
  · intro hx
    rw [heq, if_pos hx]
    exact ⟨_, rfl, rfl, mentions_append_mid _ _ _⟩
  · intro hx
    have hx0 : ¬ (x = "") := by rw [hx]; decide
    rw [heq, if_neg hx0, if_pos hx]
    exact ⟨_, rfl, rfl⟩

/-- C12 (amended) on `["/a", ""]`: the message reports position 1. -/
theorem C12_first_offender_message_witness :
    ∃ e, diskOverlayDir.validateCreateData ⟨"directory", ["/a", ""]⟩ = some e ∧
      e.msg = "empty " ++ fmtLen ["/a"].length ++ " dir" ∧
      mentions e.msg (fmtLen ["/a"].length) :=
  (C12_first_offender_message ⟨"directory", ["/a", ""]⟩ ["/a"] "" [] rfl
    (by intro y hy; rw [List.mem_singleton] at hy; rw [hy]; decide)).1 rfl

/-! ## Overlay dispatch -/

theorem validateOverlay_congr (d : disk) (m : OverlayMethods)
    (dk dk' : ContainerVolumeMountDisk) (h : dk.Overlay = dk'.Overlay) :
    d.validateOverlay m dk = d.validateOverlay m dk' := by
  simp only [disk.validateOverlay, h]

theorem validateOverlay_invalid (d : disk) (m : OverlayMethods)
    (dk : ContainerVolumeMountDisk) (ov : ContainerVolumeMountDiskOverlay) (err : Error)
    (hov : dk.Overlay = some ov) (hv : m.IsValid ov = some err) :
    d.validateOverlay m dk = Except.error (Fault.error
      (NewInputParameterError ("invalid overlay input: " ++ err.msg))) := by
  simp only [disk.validateOverlay, hov, hv]

theorem newDisk_validateOverlay_directory (m : OverlayMethods)
    (dk : ContainerVolumeMountDisk) (ov : ContainerVolumeMountDiskOverlay)
    (hov : dk.Overlay = some ov) (hv : m.IsValid ov = none)
    (ht : m.GetType ov = CONTAINER_DISK_OVERLAY_TYPE_DIRECTORY) :
    newDisk.validateOverlay m dk =
      match diskOverlayDir.validateCreateData ov with
      | some err => Except.error (Fault.error (Wrap err ("validate overlay " ++ m.GetType ov)))
      | none => Except.ok () := by
  simp only [disk.validateOverlay, hov, hv, disk.getOverlayDriver, newDisk, ht, if_true,
    newDiskOverlayDir]

/-- C13: `validateOverlay` succeeds when the overlay is nil; when `IsValid` rejects the
overlay it fails with kind `InvalidValue` and the outcome is the same for every registry,
the empty one included, so no registry entry is called; for an overlay that `IsValid`
accepts and whose type is `directory`, the driver of `newDisk` succeeds exactly when the
directory overlay validator succeeds on that overlay. -/
theorem C13_overlay_dispatch (d : disk) (m : OverlayMethods) (dk : ContainerVolumeMountDisk) :
    (dk.Overlay = none → d.validateOverlay m dk = Except.ok ()) ∧
    (∀ ov err, dk.Overlay = some ov → m.IsValid ov = some err →
      ∀ d' : disk, d'.validateOverlay m dk = d.validateOverlay m dk ∧
        ∃ e, d'.validateOverlay m dk = Except.error (Fault.error e) ∧ e.kind = InvalidValue) ∧
    (∀ ov, dk.Overlay = some ov → m.IsValid ov = none →
      m.GetType ov = CONTAINER_DISK_OVERLAY_TYPE_DIRECTORY →
      (newDisk.validateOverlay m dk = Except.ok () ↔
        diskOverlayDir.validateCreateData ov = none)) := by
  refine ⟨?_, ?_, ?_⟩
  · intro hov
    simp only [disk.validateOverlay, hov]
  · intro ov err hov hv d'
    rw [validateOverlay_invalid d' m dk ov err hov hv,
      validateOverlay_invalid d m dk ov err hov hv]
    exact ⟨rfl, _, rfl, rfl⟩
  · intro ov hov hv ht
    rw [newDisk_validateOverlay_directory m dk ov hov hv ht]
    cases hdir : diskOverlayDir.validateCreateData ov with
    | none => simp
    | some err => simp

/-- C13 on an overlay with an unknown tag, against the empty registry: the call fails with
`InvalidValue`, as it does with the registry of `newDisk`. -/
theorem C13_overlay_dispatch_witness :
    (disk.mk (fun _ => none)).validateOverlay apisOverlayMethods
        ⟨some 0, "", "", some ⟨"tmpfs", ["/a"]⟩⟩ =
      newDisk.validateOverlay apisOverlayMethods ⟨some 0, "", "", some ⟨"tmpfs", ["/a"]⟩⟩ ∧
    ∃ e, (disk.mk (fun _ => none)).validateOverlay apisOverlayMethods
        ⟨some 0, "", "", some ⟨"tmpfs", ["/a"]⟩⟩ = Except.error (Fault.error e) ∧
      e.kind = InvalidValue :=
  (C13_overlay_dispatch newDisk apisOverlayMethods
    ⟨some 0, "", "", some ⟨"tmpfs", ["/a"]⟩⟩).2.1 ⟨"tmpfs", ["/a"]⟩
    ⟨ErrorClass.other "ErrNotSupported", "unsupported overlay type tmpfs"⟩ rfl rfl
    (disk.mk (fun _ => none))

/-! ## The call after the disk has been resolved -/

theorem ValidateCreateData_resolved (d : disk) (m : OverlayMethods) (L : List SDisk)
    (dk : ContainerVolumeMountDisk) (e : SDisk) (hres : resolvesTo L dk e) :
    d.ValidateCreateData m (Except.ok L) ⟨some dk⟩ =
      if e.TemplateId ≠ "" ∧ dk.SubDirectory = "" then
        ⟨⟨some ⟨none, e.GetId, dk.SubDirectory, dk.Overlay⟩⟩,
          Except.error (Fault.error (NewInputParameterError
            ("sub_directory is required when disk has template_id " ++ e.TemplateId)))⟩
      else
        d.finish m ⟨some ⟨none, e.GetId, dk.SubDirectory, dk.Overlay⟩⟩
          ⟨none, e.GetId, dk.SubDirectory, dk.Overlay⟩ := by
  rcases hres with ⟨i, hidx, h0, _, he⟩ | ⟨hidx, hid, hf⟩
  · exact ValidateCreateData_index_in d m L dk i e hidx h0 he
  · exact ValidateCreateData_id_found d m L dk e hidx hid hf

theorem finish_mem (d : disk) (m : OverlayMethods) (vm : ContainerVolumeMount)
    (dk : ContainerVolumeMountDisk) : (d.finish m vm dk).mem = vm := by
  unfold disk.finish
  split <;> rfl

theorem finish_overlay_error (d : disk) (m : OverlayMethods) (vm : ContainerVolumeMount)
    (dk : ContainerVolumeMountDisk) (err : Error)
    (h : d.validateOverlay m dk = Except.error (Fault.error err)) :
    (d.finish m vm dk).ret = Except.error (Fault.error (Wrap err "validate overlay")) := by
  simp only [disk.finish, h]

theorem finish_overlay_ok (d : disk) (m : OverlayMethods) (vm : ContainerVolumeMount)
    (dk : ContainerVolumeMountDisk) (h : d.validateOverlay m dk = Except.ok ()) :
    d.finish m vm dk = ⟨vm, Except.ok vm⟩ := by
  simp only [disk.finish, h]

/-- C14: for a mount that passes the structural check, a failure of the disk retrieval
with error `err` makes `ValidateCreateData` fail with the class of `err` and the message
`get pod disks: ` followed by the message of `err`; and when the disk reference resolves
and the template check passes, a failure of the overlay validation with error `err` makes
it fail with the class of `err` and the message `validate overlay: ` followed by the
message of `err`. -/
theorem C14_wrapping_preserves_kind (d : disk) (m : OverlayMethods)
    (dk : ContainerVolumeMountDisk)
    (hs : d.validateCreateData ⟨some dk⟩ = Except.ok ⟨some dk⟩) :
    (∀ err : Error, ∃ e',
      (d.ValidateCreateData m (Except.error err) ⟨some dk⟩).ret =
        Except.error (Fault.error e') ∧
      e'.kind = err.kind ∧ e'.msg = "get pod disks: " ++ err.msg) ∧
    (∀ (L : List SDisk) (e : SDisk) (err : Error), resolvesTo L dk e →
      (e.TemplateId = "" ∨ dk.SubDirectory ≠ "") →
      d.validateOverlay m dk = Except.error (Fault.error err) →
      ∃ e', (d.ValidateCreateData m (Except.ok L) ⟨some dk⟩).ret =
          Except.error (Fault.error e') ∧
        e'.kind = err.kind ∧ e'.msg = "validate overlay: " ++ err.msg) := by
  constructor
  · intro err
    refine ⟨Wrap err "get pod disks", ?_, rfl, rfl⟩
    simp only [disk.ValidateCreateData, hs]
  · intro L e err hres htpl hov
    have hc : ¬ (e.TemplateId ≠ "" ∧ dk.SubDirectory = "") := by
      rintro ⟨h1, h2⟩
      rcases htpl with h | h
      · exact h1 h
      · exact h h2
    have hov2 : d.validateOverlay m ⟨none, e.GetId, dk.SubDirectory, dk.Overlay⟩ =
        Except.error (Fault.error err) := by
      rw [← hov]
      exact validateOverlay_congr d m _ _ rfl
    refine ⟨Wrap err "validate overlay", ?_, rfl, rfl⟩
    rw [ValidateCreateData_resolved d m L dk e hres, if_neg hc]
    exact finish_overlay_error d m _ _ err hov2

/-- C14 on a mount whose overlay has an empty lower-dir entry: the overlay validation
fails with `MissingField`, and so does `ValidateCreateData`, the message prefixed by
`validate overlay: `. -/
theorem C14_wrapping_preserves_kind_witness :
    ∃ e', (newDisk.ValidateCreateData apisOverlayMethods
          (Except.ok [SDisk.mk "d1" "n1" ""])
          ⟨some ⟨some 0, "", "", some ⟨"directory", [""]⟩⟩⟩).ret =
        Except.error (Fault.error e') ∧
      e'.kind = MissingField ∧
      e'.msg = "validate overlay: " ++ "validate overlay directory: empty 0 dir" :=
  (C14_wrapping_preserves_kind newDisk apisOverlayMethods
    ⟨some 0, "", "", some ⟨"directory", [""]⟩⟩ rfl).2 [SDisk.mk "d1" "n1" ""]
    (SDisk.mk "d1" "n1" "")
    ⟨ErrorClass.NotEmptyError, "validate overlay directory: empty 0 dir"⟩
    (Or.inl ⟨0, rfl, by decide, by decide, rfl⟩) (Or.inl rfl) rfl

/-! ## Pod creation and the overlay -/

theorem ValidatePodCreateData_mem (d : disk) (vm : ContainerVolumeMount)
    (P : List DiskConfig) : (d.ValidatePodCreateData vm P).mem = vm := by
  unfold disk.ValidatePodCreateData
  repeat (first | rfl | split)

/-- C15: the value `ValidatePodCreateData` returns does not depend on the overlay: two
mounts that differ only in `Disk.Overlay` give the same result, for every pending disk
list. -/
theorem C15_pod_creation_ignores_overlay (d : disk) (P : List DiskConfig)
    (idx : Option Int) (id sub : String)
    (ov1 ov2 : Option ContainerVolumeMountDiskOverlay) :
    (d.ValidatePodCreateData ⟨some ⟨idx, id, sub, ov1⟩⟩ P).ret =
      (d.ValidatePodCreateData ⟨some ⟨idx, id, sub, ov2⟩⟩ P).ret := by
  cases idx with
  | none =>
    by_cases hid : id = ""
    · simp [disk.ValidatePodCreateData, disk.validateCreateData, hid]
    · simp [disk.ValidatePodCreateData, disk.validateCreateData, hid]
  | some i =>
    by_cases hneg : i < 0
    · simp [disk.ValidatePodCreateData, disk.validateCreateData, hneg]
    · by_cases hid : id = ""
      · by_cases hge : (P.length : Int) ≤ i
        · simp [disk.ValidatePodCreateData, disk.validateCreateData, hneg, hid, hge]
        · cases hg : P.get? i.toNat with
          | none =>
            simp only [disk.ValidatePodCreateData, disk.validateCreateData, hneg, hid, hge, hg,
              ge_iff_le, if_false, ne_eq, not_true_eq_false, and_true, reduceCtorEq]
          | some e =>
            by_cases hc : e.ImageId ≠ "" ∧ sub = ""
            · simp only [disk.ValidatePodCreateData, disk.validateCreateData, hneg, hid, hge,
                hg, ge_iff_le, if_false, ne_eq, not_true_eq_false, and_true, reduceCtorEq,
                if_pos hc]
            · simp only [disk.ValidatePodCreateData, disk.validateCreateData, hneg, hid, hge,
                hg, ge_iff_le, if_false, ne_eq, not_true_eq_false, and_true, reduceCtorEq,
                if_neg hc]
      · simp [disk.ValidatePodCreateData, disk.validateCreateData, hneg, hid]

/-! ## The caller's mount after the call -/

theorem structural_ok_inv (d : disk) (vm v0 : ContainerVolumeMount)
    (hs : d.validateCreateData vm = Except.ok v0) :
    ∃ dk, vm = ⟨some dk⟩ ∧ d.validateCreateData ⟨some dk⟩ = Except.ok ⟨some dk⟩ ∧
      ((∃ i, dk.Index = some i ∧ 0 ≤ i) ∨ (dk.Index = none ∧ dk.Id ≠ "")) := by
  obtain ⟨dko⟩ := vm
  cases dko with
  | none => simp [disk.validateCreateData] at hs
  | some dk =>
    refine ⟨dk, rfl, ?_, ?_⟩
    · unfold disk.validateCreateData at hs ⊢
      simp only at hs ⊢
      split at hs
      · cases hs
      · rename_i hne
        rw [if_neg hne]
        split at hs
        · split at hs
          · cases hs
          · rename_i hi
            rw [if_neg hi]
        · rfl
    · cases hidx : dk.Index with
      | some i =>
        left
        refine ⟨i, rfl, ?_⟩
        by_contra hneg
        simp [disk.validateCreateData, hidx, lt_of_not_ge hneg] at hs
      | none =>
        right
        refine ⟨rfl, ?_⟩
        intro hid
        simp [disk.validateCreateData, hidx, hid] at hs

theorem ValidateCreateData_retrieval_error (d : disk) (m : OverlayMethods)
    (dk : ContainerVolumeMountDisk) (err : Error)
    (hs : d.validateCreateData ⟨some dk⟩ = Except.ok ⟨some dk⟩) :
    d.ValidateCreateData m (Except.error err) ⟨some dk⟩ =
      ⟨⟨some dk⟩, Except.error (Fault.error (Wrap err "get pod disks"))⟩ := by
  simp only [disk.ValidateCreateData, hs]

/-- C16 as stated fails: on the specification's example (disks `d1` and template-backed
`d2`, index 1, empty subDirectory) `ValidateCreateData` returns an error, and the caller's
mount then holds `Disk.Id = d2` and `Disk.Index = nil` in place of the input's empty id
and index 1. -/
theorem C16_counterexample :
    (newDisk.ValidateCreateData apisOverlayMethods
        (Except.ok [SDisk.mk "d1" "n1" "", SDisk.mk "d2" "n2" "tpl1"])
        ⟨some ⟨some 1, "", "", none⟩⟩).ret =
      Except.error (Fault.error ⟨ErrorClass.InputParameterError,
        "sub_directory is required when disk has template_id tpl1"⟩) ∧
    (newDisk.ValidateCreateData apisOverlayMethods
        (Except.ok [SDisk.mk "d1" "n1" "", SDisk.mk "d2" "n2" "tpl1"])
        ⟨some ⟨some 1, "", "", none⟩⟩).mem = ⟨some ⟨none, "d2", "", none⟩⟩ ∧
    (⟨some ⟨none, "d2", "", none⟩⟩ : ContainerVolumeMount) ≠ ⟨some ⟨some 1, "", "", none⟩⟩ :=
  ⟨rfl, rfl, by decide⟩

/-- C16 (amended): `ValidatePodCreateData` never changes the mount.  `ValidateCreateData`
leaves the mount as passed in whenever the disk reference does not resolve (structural
failure, failed disk retrieval, index out of range, no matching entry); once the reference
has resolved to an entry `e` of the list, the caller's mount holds `Disk.Id = e.GetId` and
`Disk.Index = nil`, subDirectory and overlay unchanged, whether the call then succeeds or
fails at the template check or the overlay check. -/
theorem C16_mount_after_call (d : disk) (m : OverlayMethods)
    (g : Except Error (List SDisk)) (vm : ContainerVolumeMount) (P : List DiskConfig) :
    (d.ValidatePodCreateData vm P).mem = vm ∧
    ((∀ L dk e, g = Except.ok L → vm.Disk = some dk → ¬ resolvesTo L dk e) →
      (d.ValidateCreateData m g vm).mem = vm) ∧
    (∀ L dk e, g = Except.ok L → vm.Disk = some dk → resolvesTo L dk e →
      (d.ValidateCreateData m g vm).mem =
        ⟨some ⟨none, e.GetId, dk.SubDirectory, dk.Overlay⟩⟩) := by
  refine ⟨ValidatePodCreateData_mem d vm P, ?_, ?_⟩
  · intro hno
    cases hs : d.validateCreateData vm with
    | error e0 => rw [structural_error_propagates d m g vm e0 hs]
    | ok v0 =>
      obtain ⟨dk, hvm, hs2, hshape⟩ := structural_ok_inv d vm v0 hs
      subst hvm
      cases g with
      | error err => rw [ValidateCreateData_retrieval_error d m dk err hs2]
      | ok L =>
        rcases hshape with ⟨i, hidx, h0⟩ | ⟨hidx, hid⟩
        · rcases le_or_lt (L.length : Int) i with hge | hlt
          · rw [ValidateCreateData_index_large d m L dk i hidx hge]
          · obtain ⟨e, he⟩ := get?_toNat_of_lt SDisk L i h0 hlt
            exact absurd (Or.inl ⟨i, hidx, h0, hlt, he⟩) (hno L dk e rfl rfl)
        · cases hf : L.find? (matchesRef dk.Id) with
          | none => rw [ValidateCreateData_id_missing d m L dk hidx hid hf]
          | some e => exact absurd (Or.inr ⟨hidx, hid, hf⟩) (hno L dk e rfl rfl)
  · intro L dk e hg hdk hres
    obtain ⟨dko⟩ := vm
    simp only at hdk
    subst hdk
    subst hg
    rw [ValidateCreateData_resolved d m L dk e hres]
    split
    · rfl
    · exact finish_mem d m _ _

/-- C16 (amended) on an index out of range: the reference does not resolve and the mount
is returned to the caller as passed in. -/
theorem C16_mount_after_call_witness :
    (newDisk.ValidateCreateData apisOverlayMethods (Except.ok [SDisk.mk "d1" "n1" ""])
        ⟨some ⟨some 3, "", "", none⟩⟩).mem = ⟨some ⟨some 3, "", "", none⟩⟩ :=
  (C16_mount_after_call newDisk apisOverlayMethods (Except.ok [SDisk.mk "d1" "n1" ""])
    ⟨some ⟨some 3, "", "", none⟩⟩ []).2.1 (by
      intro L dk e hg hdk hres
      cases hg
      cases hdk
      rcases hres with ⟨i, hidx, _, hlt, _⟩ | ⟨hidx, _, _⟩
      · cases hidx
        exact absurd hlt (by decide)
      · cases hidx)

/-! ## The overlay registry -/

theorem newDisk_no_panic (m : OverlayMethods)
    (hm : ∀ ov, m.IsValid ov = none → m.GetType ov = CONTAINER_DISK_OVERLAY_TYPE_DIRECTORY)
    (dk : ContainerVolumeMountDisk) :
    newDisk.validateOverlay m dk ≠ Except.error Fault.panic := by
  intro h
  cases hov : dk.Overlay with
  | none => simp [disk.validateOverlay, hov] at h
  | some ov =>
    cases hv : m.IsValid ov with
    | some err => rw [validateOverlay_invalid newDisk m dk ov err hov hv] at h; cases h
    | none =>
      rw [newDisk_validateOverlay_directory m dk ov hov hv (hm ov hv)] at h
      split at h
      · cases h
      · cases h

/-- C17: with the registry of `newDisk`, every overlay that `IsValid` accepts has a
registered validator, so `validateOverlay` never calls `validateCreateData` on an absent
registry entry (it never ends in the nil-dereference fault). -/
theorem C17_registry_covers_valid_tags (dk : ContainerVolumeMountDisk) :
    (∀ ov, apisOverlayMethods.IsValid ov = none →
      ∃ drv, newDisk.getOverlayDriver apisOverlayMethods ov = some drv) ∧
    newDisk.validateOverlay apisOverlayMethods dk ≠ Except.error Fault.panic := by
  have hm : ∀ ov, apisOverlayMethods.IsValid ov = none →
      apisOverlayMethods.GetType ov = CONTAINER_DISK_OVERLAY_TYPE_DIRECTORY := by
    intro ov hv
    by_contra hne
    have hne2 : ¬ (ov.TypeTag = CONTAINER_DISK_OVERLAY_TYPE_DIRECTORY) := hne
    simp only [apisOverlayMethods, if_neg hne2] at hv
    cases hv
  constructor
  · intro ov hv
    refine ⟨newDiskOverlayDir, ?_⟩
    simp only [disk.getOverlayDriver, newDisk, hm ov hv, if_true]
  · exact newDisk_no_panic apisOverlayMethods hm dk

/-- C17 on a directory overlay: its validator is the registered directory validator. -/
theorem C17_registry_covers_valid_tags_witness :
    ∃ drv, newDisk.getOverlayDriver apisOverlayMethods ⟨"directory", ["/a"]⟩ = some drv :=
  (C17_registry_covers_valid_tags ⟨none, "d1", "", none⟩).1 ⟨"directory", ["/a"]⟩ rfl

/-! ## Index and id set together -/

/-- C18: with a non-negative index, the value `ValidateCreateData` returns is the same as
on the same mount with `Disk.Id` cleared: the id supplied next to an index is not read. -/
theorem C18_index_overrides_id (d : disk) (m : OverlayMethods)
    (g : Except Error (List SDisk)) (i : Int) (id sub : String)
    (ov : Option ContainerVolumeMountDiskOverlay) (h0 : 0 ≤ i) :
    (d.ValidateCreateData m g ⟨some ⟨some i, id, sub, ov⟩⟩).ret =
      (d.ValidateCreateData m g ⟨some ⟨some i, "", sub, ov⟩⟩).ret := by
  have hs1 := structural_ok_of_index d ⟨some i, id, sub, ov⟩ i rfl h0
  have hs2 := structural_ok_of_index d ⟨some i, "", sub, ov⟩ i rfl h0
  cases g with
  | error err =>
    rw [ValidateCreateData_retrieval_error d m _ err hs1,
      ValidateCreateData_retrieval_error d m _ err hs2]
  | ok L =>
    rcases le_or_lt (L.length : Int) i with hge | hlt
    · rw [ValidateCreateData_index_large d m L _ i rfl hge,
        ValidateCreateData_index_large d m L _ i rfl hge]
    · obtain ⟨e, he⟩ := get?_toNat_of_lt SDisk L i h0 hlt
      rw [ValidateCreateData_index_in d m L ⟨some i, id, sub, ov⟩ i e rfl h0 he,
        ValidateCreateData_index_in d m L ⟨some i, "", sub, ov⟩ i e rfl h0 he]

/-- C18 on an id that names no disk of the list: the call resolves by the index and
returns the id of the indexed disk. -/
theorem C18_index_overrides_id_witness :
    (newDisk.ValidateCreateData apisOverlayMethods (Except.ok [SDisk.mk "d1" "n1" ""])
        ⟨some ⟨some 0, "missing", "", none⟩⟩).ret =
      (newDisk.ValidateCreateData apisOverlayMethods (Except.ok [SDisk.mk "d1" "n1" ""])
        ⟨some ⟨some 0, "", "", none⟩⟩).ret :=
  C18_index_overrides_id newDisk apisOverlayMethods (Except.ok [SDisk.mk "d1" "n1" ""]) 0
    "missing" "" none (by decide)

/-! ## Validating a normalized mount again -/

theorem resolvesTo_mem (L : List SDisk) (dk : ContainerVolumeMountDisk) (e : SDisk)
    (h : resolvesTo L dk e) : e ∈ L := by
  rcases h with ⟨i, _, _, _, he⟩ | ⟨_, _, hf⟩
  · exact List.get?_mem he
  · exact List.mem_of_find?_eq_some hf

theorem ValidateCreateData_ok_inv (d : disk) (m : OverlayMethods) (L : List SDisk)
    (vm vm' : ContainerVolumeMount)
    (hok : (d.ValidateCreateData m (Except.ok L) vm).ret = Except.ok vm') :
    ∃ dk e, vm = ⟨some dk⟩ ∧ resolvesTo L dk e ∧
      ¬ (e.TemplateId ≠ "" ∧ dk.SubDirectory = "") ∧
      d.validateOverlay m ⟨none, e.GetId, dk.SubDirectory, dk.Overlay⟩ = Except.ok () ∧
      vm' = ⟨some ⟨none, e.GetId, dk.SubDirectory, dk.Overlay⟩⟩ := by
  have key : ∀ (dk : ContainerVolumeMountDisk) (e : SDisk), resolvesTo L dk e →
      (d.ValidateCreateData m (Except.ok L) ⟨some dk⟩).ret = Except.ok vm' →
      ¬ (e.TemplateId ≠ "" ∧ dk.SubDirectory = "") ∧
      d.validateOverlay m ⟨none, e.GetId, dk.SubDirectory, dk.Overlay⟩ = Except.ok () ∧
      vm' = ⟨some ⟨none, e.GetId, dk.SubDirectory, dk.Overlay⟩⟩ := by
    intro dk e hres h
    rw [ValidateCreateData_resolved d m L dk e hres] at h
    split at h
    · cases h
    · rename_i hc
      refine ⟨hc, ?_, finish_ok d m _ vm' _ h⟩
      cases hov : d.validateOverlay m ⟨none, e.GetId, dk.SubDirectory, dk.Overlay⟩ with
      | ok u => rfl
      | error f =>
        simp only [disk.finish, hov] at h
        cases f with
        | error err => cases h
        | panic => cases h
  cases hs : d.validateCreateData vm with
  | error e0 =>
    rw [structural_error_propagates d m _ vm e0 hs] at hok
    cases hok
  | ok v0 =>
    obtain ⟨dk, hvm, _, hshape⟩ := structural_ok_inv d vm v0 hs
    subst hvm
    rcases hshape with ⟨i, hidx, h0⟩ | ⟨hidx, hid⟩
    · rcases le_or_lt (L.length : Int) i with hge | hlt
      · rw [ValidateCreateData_index_large d m L dk i hidx hge] at hok
        cases hok
      · obtain ⟨e, he⟩ := get?_toNat_of_lt SDisk L i h0 hlt
        have hres : resolvesTo L dk e := Or.inl ⟨i, hidx, h0, hlt, he⟩
        exact ⟨dk, e, rfl, hres, key dk e hres hok⟩
    · cases hf : L.find? (matchesRef dk.Id) with
      | none =>
        rw [ValidateCreateData_id_missing d m L dk hidx hid hf] at hok
        cases hok
      | some e =>
        have hres : resolvesTo L dk e := Or.inr ⟨hidx, hid, hf⟩
        exact ⟨dk, e, rfl, hres, key dk e hres hok⟩

theorem find_own_id (L : List SDisk) (hL : distinctDisks L) (e : SDisk) (he : e ∈ L) :
    L.find? (matchesRef e.GetId) = some e := by
  cases hf : L.find? (matchesRef e.GetId) with
  | none =>
    exact absurd (Or.inl rfl) ((find_none_iff_no_match e.GetId L).mp hf e he)
  | some x =>
    have hx : x ∈ L := List.mem_of_find?_eq_some hf
    have hp : matchesRef e.GetId x = true := List.find?_some hf
    have hm : x.GetId = e.GetId ∨ x.GetName = e.GetId := by simpa [matchesRef] using hp
    rcases hm with h | h
    · rw [List.inj_on_of_nodup_map hL.2.1 hx he h]
    · rw [hL.2.2 x hx e he h]

/-- C19 as stated fails: with disks `d1` (named `d2`) and `d2`, the mount with index 1 is
normalized to `Disk.Id = d2`; validating that mount again matches the first disk by its
name and returns `Disk.Id = d1`. -/
theorem C19_counterexample :
    (newDisk.ValidateCreateData apisOverlayMethods
        (Except.ok [SDisk.mk "d1" "d2" "", SDisk.mk "d2" "beta" ""])
        ⟨some ⟨some 1, "", "", none⟩⟩).ret = Except.ok ⟨some ⟨none, "d2", "", none⟩⟩ ∧
    (newDisk.ValidateCreateData apisOverlayMethods
        (Except.ok [SDisk.mk "d1" "d2" "", SDisk.mk "d2" "beta" ""])
        ⟨some ⟨none, "d2", "", none⟩⟩).ret = Except.ok ⟨some ⟨none, "d1", "", none⟩⟩ ∧
    (⟨some ⟨none, "d1", "", none⟩⟩ : ContainerVolumeMount) ≠ ⟨some ⟨none, "d2", "", none⟩⟩ :=
  ⟨rfl, rfl, by decide⟩

/-- C19 (amended): on a disk list whose ids are non-empty and pairwise distinct and in
which no disk's name is the id of a different disk, normalization is idempotent: if
`ValidateCreateData` succeeds on `vm` with the normalized mount `vm'`, it succeeds on
`vm'` and returns `vm'`. -/
theorem C19_idempotent_on_distinct_disks (d : disk) (m : OverlayMethods) (L : List SDisk)
    (vm vm' : ContainerVolumeMount) (hL : distinctDisks L)
    (hok : (d.ValidateCreateData m (Except.ok L) vm).ret = Except.ok vm') :
    (d.ValidateCreateData m (Except.ok L) vm').ret = Except.ok vm' := by
  obtain ⟨dk, e, _, hres, hc, hov, hvm'⟩ := ValidateCreateData_ok_inv d m L vm vm' hok
  have hmem : e ∈ L := resolvesTo_mem L dk e hres
  have hid : e.GetId ≠ "" := hL.1 e hmem
  have hf : L.find? (matchesRef e.GetId) = some e := find_own_id L hL e hmem
  subst hvm'
  rw [ValidateCreateData_id_found d m L ⟨none, e.GetId, dk.SubDirectory, dk.Overlay⟩ e rfl
    hid hf, if_neg hc, finish_overlay_ok d m _ _ hov]

/-- C19 (amended) on two disks with distinct ids and names: the mount with index 1 is
normalized to `Disk.Id = d2` and validating it again returns the same mount. -/
theorem C19_idempotent_on_distinct_disks_witness :
    (newDisk.ValidateCreateData apisOverlayMethods
        (Except.ok [SDisk.mk "d1" "alpha" "", SDisk.mk "d2" "beta" ""])
        ⟨some ⟨none, "d2", "", none⟩⟩).ret = Except.ok ⟨some ⟨none, "d2", "", none⟩⟩ :=
  C19_idempotent_on_distinct_disks newDisk apisOverlayMethods
    [SDisk.mk "d1" "alpha" "", SDisk.mk "d2" "beta" ""]
    ⟨some ⟨some 1, "", "", none⟩⟩ ⟨some ⟨none, "d2", "", none⟩⟩
    ⟨by decide, by decide, by decide⟩ rfl

end volume_mount
